import Mathlib

/-!
Verification of the data-channel control-message codec (`jabber-tools/data`).

Bytes are modelled as `Nat` (a Rust `u8` is a `Nat` below 256 where it
matters), buffers as `List Nat` read from the front, and the growable byte
sink of marshalling as a `List Nat` appended to at the back.  Fallible Rust
functions returning `Result<T, E>` become Lean functions returning
`Except E T`; a buffer cursor is threaded explicitly, so an unmarshal
function returns the decoded value together with the unconsumed rest of
the buffer, and a marshal function returns the byte count it reports
together with the extended sink.

The error enums and the `Message` envelope are transcribed from
`src/error.rs` and `src/message.rs`.  The submodules `message_type`,
`channel_type`, `data_channel_open` and `data_channel_ack` are not part of
the sources at hand, so their codecs are modelled from the specification
(sections 4.1 to 4.4 and section 6); each such definition says so in its
doc comment.
-/

/-- Transcribed from `src/error.rs` (`ChannelTypeError`): short buffer or
unrecognized channel-type byte. -/
inductive ChannelTypeError where
  | UnexpectedEndOfBuffer (expected actual : Nat)
  | InvalidChannelType (invalid_type : Nat)
deriving DecidableEq, Repr

/-- Transcribed from `src/error.rs` (`DataChannelAckError`): an enum with no
variants, hence uninhabited. -/
inductive DataChannelAckError where
deriving DecidableEq

/-- Transcribed from `src/error.rs` (`DataChannelOpenError`). -/
inductive DataChannelOpenError where
  | UnexpectedEndOfBuffer (expected actual : Nat)
  | ExpectedAndActualLengthMismatch (expected actual : Nat)
  | InvalidPayloadProtocolIdentifier
  | ChannelType (inner : ChannelTypeError)
deriving DecidableEq, Repr

/-- Transcribed from `src/error.rs` (`MessageTypeError`). -/
inductive MessageTypeError where
  | UnexpectedEndOfBuffer (expected actual : Nat)
  | InvalidMessageType (invalid_type : Nat)
deriving DecidableEq, Repr

/-- Transcribed from `src/error.rs` (`MessageError`). -/
inductive MessageError where
  | UnexpectedEndOfBuffer (expected actual : Nat)
  | ExpectedAndActualLengthMismatch (expected actual : Nat)
  | InvalidPayloadProtocolIdentifier
  | MessageType (inner : MessageTypeError)
  | DataChannelOpen (inner : DataChannelOpenError)
deriving DecidableEq, Repr

/-- Transcribed from `src/error.rs` (`DataChannelError`).  `PayloadType`,
`StreamError`, `FromUtf8Error` and `AssociationError` live in external
collaborator crates (`sctp`, the standard library), so they are type
parameters here. -/
inductive DataChannelError (PayloadType StreamErr Utf8Err AssocErr MsgType : Type) where
  | InvalidMessageType (invalid_type : MsgType)
  | InvalidPayloadProtocolIdentifier (invalid_identifier : PayloadType)
  | Message (inner : MessageError)
  | Stream (inner : StreamErr)
  | String (inner : Utf8Err)
  | Association (inner : AssocErr)

/-- The `From<ChannelTypeError> for DataChannelOpenError` conversion derived
by `#[from]` on the `ChannelType` variant in `src/error.rs`. -/
def DataChannelOpenError.from_channel_type (e : ChannelTypeError) : DataChannelOpenError :=
  DataChannelOpenError.ChannelType e

/-- The `From<MessageTypeError> for MessageError` conversion derived by
`#[from]` on the `MessageType` variant in `src/error.rs`. -/
def MessageError.from_message_type (e : MessageTypeError) : MessageError :=
  MessageError.MessageType e

/-- The `From<DataChannelOpenError> for MessageError` conversion derived by
`#[from]` on the `DataChannelOpen` variant in `src/error.rs`. -/
def MessageError.from_data_channel_open (e : DataChannelOpenError) : MessageError :=
  MessageError.DataChannelOpen e

/-- The `From<MessageError> for DataChannelError` conversion derived by
`#[from]` on the `Message` variant in `src/error.rs`. -/
def DataChannelError.from_message {P S U A M : Type} (e : MessageError) :
    DataChannelError P S U A M :=
  DataChannelError.Message e

/-- Modelled from the spec: `MessageType` (section 3), the closed
enumeration over the two control-message kinds; `message_type.rs` is not
among the sources at hand. -/
inductive MessageType where
  | DataChannelAck
  | DataChannelOpen
deriving DecidableEq, Repr

/-- Modelled from the spec: the fixed wire codes of `MessageType`
(section 3: DataChannelAck is 0x02, DataChannelOpen is 0x03). -/
def MessageType.toByte : MessageType → Nat
  | MessageType.DataChannelAck => 0x02
  | MessageType.DataChannelOpen => 0x03

/-- Modelled from the spec: `MessageType` wire size (section 4.1,
`wire_size(self) -> 1`). -/
def MessageType.marshal_size (_ : MessageType) : Nat := 1

/-- Modelled from the spec: `MessageType` decode (section 4.1): read one
byte, `UnexpectedEndOfBuffer{expected=1, actual=remaining}` on an empty
buffer, `InvalidMessageType{invalid_type=byte}` on an unknown code. -/
def MessageType.unmarshal_from (buf : List Nat) :
    Except MessageTypeError (MessageType × List Nat) :=
  match buf with
  | [] => Except.error (MessageTypeError.UnexpectedEndOfBuffer 1 0)
  | b :: rest =>
    if b = 0x02 then Except.ok (MessageType.DataChannelAck, rest)
    else if b = 0x03 then Except.ok (MessageType.DataChannelOpen, rest)
    else Except.error (MessageTypeError.InvalidMessageType b)

/-- Modelled from the spec: `MessageType` encode (section 4.1): append the
variant's wire code, cannot fail, return 1. -/
def MessageType.marshal_to (t : MessageType) (buf : List Nat) : Nat × List Nat :=
  (1, buf ++ [t.toByte])

/-- Modelled from the spec: `ChannelType` (section 3), the closed one-byte
enumeration of reliability/ordering policy of DCEP-style establishment;
`channel_type.rs` is not among the sources at hand.  The repository's tests
pin `Reliable` to byte 0x00. -/
inductive ChannelType where
  | Reliable
  | ReliableUnordered
  | PartialReliableRexmit
  | PartialReliableRexmitUnordered
  | PartialReliableTimed
  | PartialReliableTimedUnordered
deriving DecidableEq, Repr

/-- Modelled from the spec: wire codes of `ChannelType` (DCEP table;
`Reliable` is 0x00 per the repository's tests, 0xFF is unassigned). -/
def ChannelType.toByte : ChannelType → Nat
  | ChannelType.Reliable => 0x00
  | ChannelType.ReliableUnordered => 0x80
  | ChannelType.PartialReliableRexmit => 0x01
  | ChannelType.PartialReliableRexmitUnordered => 0x81
  | ChannelType.PartialReliableTimed => 0x02
  | ChannelType.PartialReliableTimedUnordered => 0x82

/-- Modelled from the spec: the byte-to-variant direction of the
`ChannelType` code table; unknown codes are rejected. -/
def ChannelType.ofByte (b : Nat) : Option ChannelType :=
  if b = 0x00 then some ChannelType.Reliable
  else if b = 0x80 then some ChannelType.ReliableUnordered
  else if b = 0x01 then some ChannelType.PartialReliableRexmit
  else if b = 0x81 then some ChannelType.PartialReliableRexmitUnordered
  else if b = 0x02 then some ChannelType.PartialReliableTimed
  else if b = 0x82 then some ChannelType.PartialReliableTimedUnordered
  else none

/-- Modelled from the spec: `ChannelType` decode (section 4.2, same shape
as 4.1): one byte, `UnexpectedEndOfBuffer` on short input,
`InvalidChannelType{invalid_type}` on an unrecognized byte. -/
def ChannelType.unmarshal_from (buf : List Nat) :
    Except ChannelTypeError (ChannelType × List Nat) :=
  match buf with
  | [] => Except.error (ChannelTypeError.UnexpectedEndOfBuffer 1 0)
  | b :: rest =>
    match ChannelType.ofByte b with
    | some ct => Except.ok (ct, rest)
    | none => Except.error (ChannelTypeError.InvalidChannelType b)

/-- Modelled from the spec: `ChannelType` encode (section 4.2): append the
wire code, return 1. -/
def ChannelType.marshal_to (ct : ChannelType) (buf : List Nat) : Nat × List Nat :=
  (1, buf ++ [ct.toByte])

/-- Big-endian bytes of a 16-bit field, as written by `put_u16` (the value
is taken modulo 2^16 as the `u16` type does). -/
def u16be (n : Nat) : List Nat := [n / 256 % 256, n % 256]

/-- Big-endian bytes of a 32-bit field, as written by `put_u32`. -/
def u32be (n : Nat) : List Nat :=
  [n / 16777216 % 256, n / 65536 % 256, n / 256 % 256, n % 256]

/-- Modelled from the spec: the `DataChannelOpen` payload value object
(section 3); `data_channel_open.rs` is not among the sources at hand. -/
structure DataChannelOpen where
  channel_type : ChannelType
  priority : Nat
  reliability_parameter : Nat
  label : List Nat
  protocol : List Nat
deriving DecidableEq, Repr

/-- Modelled from the spec: `DataChannelOpen` wire size (section 4.3,
`wire_size = 1+2+4+2+2+len(label)+len(protocol)`). -/
def DataChannelOpen.marshal_size (d : DataChannelOpen) : Nat :=
  1 + 2 + 4 + 2 + 2 + d.label.length + d.protocol.length

/-- Modelled from the spec: `DataChannelOpen` encode (section 4.3): channel
type, priority (2B BE), reliability parameter (4B BE), the two length
fields, then label and protocol bytes, in that order. -/
def DataChannelOpen.marshal_to (d : DataChannelOpen) (buf : List Nat) : Nat × List Nat :=
  (1 + 2 + 4 + 2 + 2 + d.label.length + d.protocol.length,
    buf ++ [d.channel_type.toByte] ++ u16be d.priority ++ u32be d.reliability_parameter
      ++ u16be d.label.length ++ u16be d.protocol.length ++ d.label ++ d.protocol)

/-- Modelled from the spec: `DataChannelOpen` decode (section 4.3): channel
type via 4.2 with its error wrapped under `ChannelType`, then priority,
reliability parameter and the two big-endian length fields; the declared
lengths must account exactly for every remaining byte, otherwise
`ExpectedAndActualLengthMismatch{expected, actual}` (section 4.3 step 8 and
the length-mismatch testable property of section 8: a length field claiming
more bytes than are present is a mismatch error, not a truncated read). -/
def DataChannelOpen.unmarshal_from (buf : List Nat) :
    Except DataChannelOpenError (DataChannelOpen × List Nat) :=
  match ChannelType.unmarshal_from buf with
  | Except.error e => Except.error (DataChannelOpenError.from_channel_type e)
  | Except.ok (ct, rest) =>
    match rest with
    | p1 :: p2 :: r1 :: r2 :: r3 :: r4 :: l1 :: l2 :: q1 :: q2 :: body =>
      let priority := p1 * 256 + p2
      let reliability_parameter := r1 * 16777216 + r2 * 65536 + r3 * 256 + r4
      let label_length := l1 * 256 + l2
      let protocol_length := q1 * 256 + q2
      if body.length = label_length + protocol_length then
        Except.ok
          ({ channel_type := ct, priority := priority,
             reliability_parameter := reliability_parameter,
             label := body.take label_length,
             protocol := (body.drop label_length).take protocol_length },
           body.drop (label_length + protocol_length))
      else
        Except.error (DataChannelOpenError.ExpectedAndActualLengthMismatch
          (label_length + protocol_length) body.length)
    | _ => Except.error (DataChannelOpenError.UnexpectedEndOfBuffer 10 rest.length)

namespace DataChannelAck

/-- Modelled from the spec: `DataChannelAck` decode (section 4.4): consumes
0 bytes and always succeeds. -/
def unmarshal_from (buf : List Nat) : Except DataChannelAckError (Unit × List Nat) :=
  Except.ok ((), buf)

/-- Modelled from the spec: `DataChannelAck` encode (section 4.4): writes
0 bytes. -/
def marshal_to (buf : List Nat) : Nat × List Nat := (0, buf)

/-- Modelled from the spec: `DataChannelAck` wire size is 0 (section 4.4). -/
def marshal_size : Nat := 0

end DataChannelAck

/-- Transcribed from `src/message.rs`: the parsed DataChannel message, a
tagged union of the unit acknowledgment and the open payload. -/
inductive Message where
  | DataChannelAck
  | DataChannelOpen (info : DataChannelOpen)
deriving DecidableEq, Repr

/-- Transcribed from `src/message.rs` (`Message::message_type`): the
`MessageType` recomputed from the active variant. -/
def Message.message_type : Message → MessageType
  | Message.DataChannelAck => MessageType.DataChannelAck
  | Message.DataChannelOpen _ => MessageType.DataChannelOpen

/-- Transcribed from `src/message.rs` (`MarshalSize for Message`): type
size plus the active variant's data size (0 for the acknowledgment). -/
def Message.marshal_size (m : Message) : Nat :=
  let type_size := m.message_type.marshal_size
  let data_size :=
    match m with
    | Message.DataChannelAck => 0
    | Message.DataChannelOpen info => info.marshal_size
  type_size + data_size

/-- Transcribed from `src/message.rs` (`Unmarshal for Message`): decode the
`MessageType`, return the unit variant on `DataChannelAck`, delegate to the
`DataChannelOpen` decoder on `DataChannelOpen`; the `?` operator wraps each
stage's error through the derived `From` conversions. -/
def Message.unmarshal_from (buf : List Nat) :
    Except MessageError (Message × List Nat) :=
  match MessageType.unmarshal_from buf with
  | Except.error e => Except.error (MessageError.from_message_type e)
  | Except.ok (MessageType.DataChannelAck, rest) => Except.ok (Message.DataChannelAck, rest)
  | Except.ok (MessageType.DataChannelOpen, rest) =>
    match DataChannelOpen.unmarshal_from rest with
    | Except.error e => Except.error (MessageError.from_data_channel_open e)
    | Except.ok (info, rest2) => Except.ok (Message.DataChannelOpen info, rest2)

/-- Transcribed from `src/message.rs` (`Marshal for Message`): write the
message type recomputed from the active variant, then the variant's
payload (nothing for the acknowledgment), returning the summed count. -/
def Message.marshal_to (m : Message) (buf : List Nat) :
    Except MessageError (Nat × List Nat) :=
  let (n1, buf1) := m.message_type.marshal_to buf
  match m with
  | Message.DataChannelAck => Except.ok (n1 + 0, buf1)
  | Message.DataChannelOpen info =>
    let (n2, buf2) := info.marshal_to buf1
    Except.ok (n1 + n2, buf2)

/-- The byte sequence `marshal_to` appends to an empty sink. -/
def Message.encodeBytes (m : Message) : List Nat :=
  match m.marshal_to [] with
  | Except.ok (_, bs) => bs
  | Except.error _ => []

/-- A `Message` value is valid when its numeric fields fit their wire
widths (`u16` priority and length prefixes, `u32` reliability parameter)
and its label and protocol entries are bytes, as the Rust types `u16`,
`u32` and `Vec<u8>` force and the length-prefix invariant of section 3
demands. -/
def DataChannelOpen.wf (d : DataChannelOpen) : Prop :=
  d.priority < 65536 ∧ d.reliability_parameter < 4294967296 ∧
    d.label.length < 65536 ∧ d.protocol.length < 65536 ∧
    (∀ b ∈ d.label, b < 256) ∧ (∀ b ∈ d.protocol, b < 256)

instance (d : DataChannelOpen) : Decidable d.wf := by
  unfold DataChannelOpen.wf; infer_instance

/-- Validity of a `Message`: the acknowledgment is always valid, the open
payload must be well-formed. -/
def Message.wf : Message → Prop
  | Message.DataChannelAck => True
  | Message.DataChannelOpen d => d.wf

instance (m : Message) : Decidable m.wf := by
  cases m <;> (unfold Message.wf; infer_instance)

/-! ### Helper lemmas -/

theorem ChannelType.ofByte_toByte (ct : ChannelType) :
    ChannelType.ofByte ct.toByte = some ct := by
  cases ct <;> rfl

theorem MessageType.unmarshal_cons_ack (rest : List Nat) :
    MessageType.unmarshal_from (2 :: rest) = Except.ok (MessageType.DataChannelAck, rest) := rfl

theorem MessageType.unmarshal_cons_open (rest : List Nat) :
    MessageType.unmarshal_from (3 :: rest) = Except.ok (MessageType.DataChannelOpen, rest) := rfl

theorem unmarshal_of_type_ack (buf rest : List Nat)
    (h : MessageType.unmarshal_from buf = Except.ok (MessageType.DataChannelAck, rest)) :
    Message.unmarshal_from buf = Except.ok (Message.DataChannelAck, rest) := by
  unfold Message.unmarshal_from
  rw [h]

theorem unmarshal_of_type_open_ok (buf rest : List Nat) (info : DataChannelOpen)
    (rest2 : List Nat)
    (h1 : MessageType.unmarshal_from buf = Except.ok (MessageType.DataChannelOpen, rest))
    (h2 : DataChannelOpen.unmarshal_from rest = Except.ok (info, rest2)) :
    Message.unmarshal_from buf = Except.ok (Message.DataChannelOpen info, rest2) := by
  unfold Message.unmarshal_from
  rw [h1]
  simp [h2]

theorem unmarshal_of_type_open_err (buf rest : List Nat) (e : DataChannelOpenError)
    (h1 : MessageType.unmarshal_from buf = Except.ok (MessageType.DataChannelOpen, rest))
    (h2 : DataChannelOpen.unmarshal_from rest = Except.error e) :
    Message.unmarshal_from buf = Except.error (MessageError.DataChannelOpen e) := by
  unfold Message.unmarshal_from
  rw [h1]
  simp [h2, MessageError.from_data_channel_open]

theorem unmarshal_of_type_err (buf : List Nat) (e : MessageTypeError)
    (h : MessageType.unmarshal_from buf = Except.error e) :
    Message.unmarshal_from buf = Except.error (MessageError.MessageType e) := by
  unfold Message.unmarshal_from
  rw [h]
  rfl

theorem unmarshal_cons_open_eq (rest : List Nat) :
    Message.unmarshal_from (3 :: rest) =
      match DataChannelOpen.unmarshal_from rest with
      | Except.error e => Except.error (MessageError.DataChannelOpen e)
      | Except.ok (info, rest2) => Except.ok (Message.DataChannelOpen info, rest2) := rfl

theorem unmarshal_of_marshal_open (ct : ChannelType) (p r : Nat) (lab pro : List Nat)
    (hp : p < 65536) (hr : r < 4294967296) (hl : lab.length < 65536)
    (hq : pro.length < 65536) :
    DataChannelOpen.unmarshal_from
        (ct.toByte ::
          (u16be p ++ u32be r ++ u16be lab.length ++ u16be pro.length ++ lab ++ pro)) =
      Except.ok (⟨ct, p, r, lab, pro⟩, []) := by
  have hp' : p / 256 % 256 * 256 + p % 256 = p := by omega
  have hr' : r / 16777216 % 256 * 16777216 + r / 65536 % 256 * 65536 + r / 256 % 256 * 256
      + r % 256 = r := by omega
  have hl' : lab.length / 256 % 256 * 256 + lab.length % 256 = lab.length := by omega
  have hq' : pro.length / 256 % 256 * 256 + pro.length % 256 = pro.length := by omega
  have hdrop : (lab ++ pro).drop (lab.length + pro.length) = [] := by
    rw [← List.length_append]
    exact List.drop_length _
  unfold DataChannelOpen.unmarshal_from ChannelType.unmarshal_from
  simp only [u16be, u32be, List.cons_append, List.append_assoc, List.nil_append]
  rw [ChannelType.ofByte_toByte]
  simp only [hp', hr', hl', hq', List.length_append, hdrop, List.take_left, List.drop_left,
    List.take_length]
  simp

theorem encodeBytes_open (ct : ChannelType) (p r : Nat) (lab pro : List Nat) :
    (Message.DataChannelOpen ⟨ct, p, r, lab, pro⟩).encodeBytes =
      3 :: (ct.toByte ::
        (u16be p ++ u32be r ++ u16be lab.length ++ u16be pro.length ++ lab ++ pro)) := by
  simp [Message.encodeBytes, Message.marshal_to, Message.message_type, MessageType.marshal_to,
    MessageType.toByte, DataChannelOpen.marshal_to]

/-! ### Claims -/

/-- Claim C1: for every valid `Message` value `m`, decoding the byte
sequence produced by encoding `m` yields exactly `m`:
`Message::unmarshal_from` applied to the output of `Message::marshal_to`
returns `Ok(m)` (with the whole buffer consumed). -/
theorem c1_roundtrip (m : Message) (h : m.wf) :
    Message.unmarshal_from m.encodeBytes = Except.ok (m, []) := by
  cases m with
  | DataChannelAck => rfl
  | DataChannelOpen d =>
    obtain ⟨ct, p, r, lab, pro⟩ := d
    obtain ⟨hp, hr, hl, hq, -, -⟩ := h
    rw [encodeBytes_open]
    exact unmarshal_of_type_open_ok _ _ _ _ (MessageType.unmarshal_cons_open _)
      (unmarshal_of_marshal_open ct p r lab pro hp hr hl hq)

/-- Witness for C1 at the repository's own test vector: the
`DataChannelOpen` message with label "label" and protocol "protocol". -/
theorem c1_roundtrip_witness :
    Message.wf (Message.DataChannelOpen
        ⟨ChannelType.Reliable, 3893, 16715573,
          [0x6c, 0x61, 0x62, 0x65, 0x6c],
          [0x70, 0x72, 0x6f, 0x74, 0x6f, 0x63, 0x6f, 0x6c]⟩) ∧
      Message.unmarshal_from
          (Message.DataChannelOpen
            ⟨ChannelType.Reliable, 3893, 16715573,
              [0x6c, 0x61, 0x62, 0x65, 0x6c],
              [0x70, 0x72, 0x6f, 0x74, 0x6f, 0x63, 0x6f, 0x6c]⟩).encodeBytes =
        Except.ok
          (Message.DataChannelOpen
            ⟨ChannelType.Reliable, 3893, 16715573,
              [0x6c, 0x61, 0x62, 0x65, 0x6c],
              [0x70, 0x72, 0x6f, 0x74, 0x6f, 0x63, 0x6f, 0x6c]⟩, []) :=
  ⟨by decide,
    c1_roundtrip
      (Message.DataChannelOpen
        ⟨ChannelType.Reliable, 3893, 16715573,
          [0x6c, 0x61, 0x62, 0x65, 0x6c],
          [0x70, 0x72, 0x6f, 0x74, 0x6f, 0x63, 0x6f, 0x6c]⟩)
      (by decide)⟩

/-- Claim C2: for every `Message` value, `Message::marshal_to` succeeds,
returns exactly `marshal_size(m)` as the written-byte count, and extends
the sink by exactly that many bytes; `marshal_size` is the `MessageType`
size plus the active variant's payload size (0 for `DataChannelAck`). -/
theorem c2_marshal_writes_marshal_size (m : Message) (buf : List Nat) :
    ∃ out : List Nat,
      m.marshal_to buf = Except.ok (m.marshal_size, out) ∧
        out.length = buf.length + m.marshal_size := by
  cases m with
  | DataChannelAck =>
    refine ⟨buf ++ [2], ?_, ?_⟩ <;>
      simp [Message.marshal_to, Message.marshal_size, Message.message_type,
        MessageType.marshal_to, MessageType.marshal_size, MessageType.toByte]
  | DataChannelOpen d =>
    obtain ⟨ct, p, r, lab, pro⟩ := d
    refine ⟨(buf ++ [3]) ++ [ct.toByte] ++ u16be p ++ u32be r ++ u16be lab.length
      ++ u16be pro.length ++ lab ++ pro, ?_, ?_⟩
    · simp [Message.marshal_to, Message.marshal_size, Message.message_type,
        MessageType.marshal_to, MessageType.marshal_size, MessageType.toByte,
        DataChannelOpen.marshal_to, DataChannelOpen.marshal_size]
    · simp [Message.marshal_size, Message.message_type, MessageType.marshal_size,
        DataChannelOpen.marshal_size, u16be, u32be]
      omega

/-- Claim C5: decoding the single-byte input `[0x01]` fails with the
invalid-message-type error identifying the offending byte `0x01`, wrapped
at the message-type stage. -/
theorem c5_invalid_message_type_x01 :
    Message.unmarshal_from [0x01] =
      Except.error
        (MessageError.MessageType (MessageTypeError.InvalidMessageType 0x01)) := rfl

/-- Claim C6: decoding the empty input `[]` fails with the short-buffer
error `UnexpectedEndOfBuffer{expected=1, actual=0}` from the message-type
stage. -/
theorem c6_empty_input_short_buffer :
    Message.unmarshal_from [] =
      Except.error
        (MessageError.MessageType (MessageTypeError.UnexpectedEndOfBuffer 1 0)) := rfl

/-- Claim C7: the `DataChannelAck` payload decode consumes 0 bytes and
always succeeds on every input buffer, its error type `DataChannelAckError`
is uninhabited, its encode writes 0 bytes, and its wire size is 0. -/
theorem c7_ack_codec :
    (∀ buf : List Nat, DataChannelAck.unmarshal_from buf = Except.ok ((), buf)) ∧
      IsEmpty DataChannelAckError ∧
      (∀ buf : List Nat, DataChannelAck.marshal_to buf = (0, buf)) ∧
      DataChannelAck.marshal_size = 0 :=
  ⟨fun _ => rfl, ⟨fun e => by cases e⟩, fun _ => rfl, rfl⟩

/-- Claim C3: `Message::unmarshal_from` first decodes a `MessageType`; a
`DataChannelAck` yields the unit variant with no further bytes consumed, a
`DataChannelOpen` delegates to the `DataChannelOpen` decoder and wraps its
result (or its error) in the corresponding variant (or error kind), and a
message-type-stage error propagates unchanged under the `MessageType`
wrapper. -/
theorem c3_unmarshal_dispatch :
    (∀ buf rest : List Nat,
        MessageType.unmarshal_from buf = Except.ok (MessageType.DataChannelAck, rest) →
          Message.unmarshal_from buf = Except.ok (Message.DataChannelAck, rest)) ∧
      (∀ (buf rest : List Nat) (info : DataChannelOpen) (rest2 : List Nat),
        MessageType.unmarshal_from buf = Except.ok (MessageType.DataChannelOpen, rest) →
          DataChannelOpen.unmarshal_from rest = Except.ok (info, rest2) →
            Message.unmarshal_from buf = Except.ok (Message.DataChannelOpen info, rest2)) ∧
      (∀ (buf rest : List Nat) (e : DataChannelOpenError),
        MessageType.unmarshal_from buf = Except.ok (MessageType.DataChannelOpen, rest) →
          DataChannelOpen.unmarshal_from rest = Except.error e →
            Message.unmarshal_from buf = Except.error (MessageError.DataChannelOpen e)) ∧
      (∀ (buf : List Nat) (e : MessageTypeError),
        MessageType.unmarshal_from buf = Except.error e →
          Message.unmarshal_from buf = Except.error (MessageError.MessageType e)) :=
  ⟨unmarshal_of_type_ack, unmarshal_of_type_open_ok, unmarshal_of_type_open_err,
    unmarshal_of_type_err⟩

/-- Witness for C3: one concrete input per dispatch branch. -/
theorem c3_unmarshal_dispatch_witness :
    Message.unmarshal_from [2, 9] = Except.ok (Message.DataChannelAck, [9]) ∧
      Message.unmarshal_from [3, 0, 0, 0, 0, 0, 0, 0, 0, 0, 0, 0] =
        Except.ok (Message.DataChannelOpen ⟨ChannelType.Reliable, 0, 0, [], []⟩, []) ∧
      Message.unmarshal_from [3] =
        Except.error (MessageError.DataChannelOpen
          (DataChannelOpenError.ChannelType (ChannelTypeError.UnexpectedEndOfBuffer 1 0))) ∧
      Message.unmarshal_from [1] =
        Except.error (MessageError.MessageType (MessageTypeError.InvalidMessageType 1)) :=
  ⟨c3_unmarshal_dispatch.1 [2, 9] [9] rfl,
    c3_unmarshal_dispatch.2.1 [3, 0, 0, 0, 0, 0, 0, 0, 0, 0, 0, 0]
      [0, 0, 0, 0, 0, 0, 0, 0, 0, 0, 0] ⟨ChannelType.Reliable, 0, 0, [], []⟩ [] rfl rfl,
    c3_unmarshal_dispatch.2.2.1 [3] []
      (DataChannelOpenError.ChannelType (ChannelTypeError.UnexpectedEndOfBuffer 1 0))
      rfl rfl,
    c3_unmarshal_dispatch.2.2.2 [1] (MessageTypeError.InvalidMessageType 1) rfl⟩

/-- Claim C4: encoding writes as its first appended byte the wire code of
the `MessageType` recomputed from the active variant (0x02 for the
acknowledgment, 0x03 for the open payload), and decoding consumes that tag
as the first byte of the buffer. -/
theorem c4_tag_first_byte :
    (∀ (m : Message) (buf : List Nat) (n : Nat) (out : List Nat),
        m.marshal_to buf = Except.ok (n, out) →
          ∃ tail, out = buf ++ m.message_type.toByte :: tail) ∧
      Message.DataChannelAck.message_type.toByte = 0x02 ∧
      (∀ d : DataChannelOpen, (Message.DataChannelOpen d).message_type.toByte = 0x03) ∧
      (∀ (buf : List Nat) (m : Message) (rest : List Nat),
        Message.unmarshal_from buf = Except.ok (m, rest) →
          buf.head? = some m.message_type.toByte) := by
  refine ⟨?_, rfl, fun d => rfl, ?_⟩
  · intro m buf n out h
    cases m with
    | DataChannelAck =>
      simp [Message.marshal_to, MessageType.marshal_to, Message.message_type,
        MessageType.toByte] at h
      exact ⟨[], h.2.symm⟩
    | DataChannelOpen d =>
      simp [Message.marshal_to, MessageType.marshal_to, Message.message_type,
        MessageType.toByte, DataChannelOpen.marshal_to] at h
      refine ⟨d.channel_type.toByte :: (u16be d.priority ++ u32be d.reliability_parameter
        ++ u16be d.label.length ++ u16be d.protocol.length ++ d.label ++ d.protocol), ?_⟩
      rw [← h.2]
      simp [Message.message_type, MessageType.toByte]
  · intro buf m rest h
    match buf with
    | [] => simp [Message.unmarshal_from, MessageType.unmarshal_from] at h
    | b :: r =>
      by_cases hb2 : b = 2
      · subst hb2
        have heq : Message.unmarshal_from (2 :: r) = Except.ok (Message.DataChannelAck, r) :=
          unmarshal_of_type_ack _ _ (MessageType.unmarshal_cons_ack r)
        have h2 := heq.symm.trans h
        simp only [Except.ok.injEq, Prod.mk.injEq] at h2
        rw [← h2.1]
        rfl
      · by_cases hb3 : b = 3
        · subst hb3
          rw [unmarshal_cons_open_eq] at h
          cases hdo : DataChannelOpen.unmarshal_from r with
          | error e => rw [hdo] at h; simp at h
          | ok v =>
            obtain ⟨info, r2⟩ := v
            rw [hdo] at h
            simp only [Except.ok.injEq, Prod.mk.injEq] at h
            rw [← h.1]
            rfl
        · simp [Message.unmarshal_from, MessageType.unmarshal_from, hb2, hb3] at h

/-- Witness for C4: the acknowledgment at an empty sink and the one-byte
acknowledgment wire input. -/
theorem c4_tag_first_byte_witness :
    (∃ tail, [2] = ([] : List Nat) ++ Message.DataChannelAck.message_type.toByte :: tail) ∧
      ([2] : List Nat).head? = some Message.DataChannelAck.message_type.toByte :=
  ⟨c4_tag_first_byte.1 Message.DataChannelAck [] 1 [2] rfl,
    c4_tag_first_byte.2.2.2 [2] Message.DataChannelAck [] rfl⟩

/-- Claim C8: a DATA_CHANNEL_OPEN buffer whose declared label length
exceeds the bytes remaining after the fixed header fails with
`ExpectedAndActualLengthMismatch` (wrapped at the `DataChannelOpen` stage),
not with a truncated read. -/
theorem c8_label_overrun_mismatch (ctb : Nat) (ct : ChannelType)
    (hct : ChannelType.ofByte ctb = some ct)
    (p1 p2 r1 r2 r3 r4 l1 l2 q1 q2 : Nat) (body : List Nat)
    (hlen : body.length < l1 * 256 + l2) :
    Message.unmarshal_from
        (3 :: ctb :: p1 :: p2 :: r1 :: r2 :: r3 :: r4 :: l1 :: l2 :: q1 :: q2 :: body) =
      Except.error (MessageError.DataChannelOpen
        (DataChannelOpenError.ExpectedAndActualLengthMismatch
          (l1 * 256 + l2 + (q1 * 256 + q2)) body.length)) := by
  apply unmarshal_of_type_open_err _ _ _ (MessageType.unmarshal_cons_open _)
  unfold DataChannelOpen.unmarshal_from
  simp only [ChannelType.unmarshal_from]
  rw [hct]
  have hne : ¬ body.length = l1 * 256 + l2 + (q1 * 256 + q2) := by omega
  simp [hne]

/-- Witness for C8: label length field declares 5 bytes, none present. -/
theorem c8_label_overrun_mismatch_witness :
    Message.unmarshal_from [3, 0, 0, 0, 0, 0, 0, 0, 0, 5, 0, 0] =
      Except.error (MessageError.DataChannelOpen
        (DataChannelOpenError.ExpectedAndActualLengthMismatch 5 0)) :=
  c8_label_overrun_mismatch 0 ChannelType.Reliable rfl 0 0 0 0 0 0 0 5 0 0 []
    (by decide)

/-- Claim C9: each derived error-wrapping conversion (ChannelTypeError into
DataChannelOpenError, MessageTypeError into MessageError,
DataChannelOpenError into MessageError, MessageError into
DataChannelError) embeds the inner error unchanged under the corresponding
variant, and is injective, so distinct inner errors map to distinct outer
errors and no diagnostic information is discarded; every conversion is a
total Lean function. -/
theorem c9_wrapping_total_lossless :
    (∀ e : ChannelTypeError,
        DataChannelOpenError.from_channel_type e = DataChannelOpenError.ChannelType e) ∧
      (∀ e1 e2 : ChannelTypeError,
        DataChannelOpenError.from_channel_type e1 = DataChannelOpenError.from_channel_type e2 →
          e1 = e2) ∧
      (∀ e : MessageTypeError,
        MessageError.from_message_type e = MessageError.MessageType e) ∧
      (∀ e1 e2 : MessageTypeError,
        MessageError.from_message_type e1 = MessageError.from_message_type e2 → e1 = e2) ∧
      (∀ e : DataChannelOpenError,
        MessageError.from_data_channel_open e = MessageError.DataChannelOpen e) ∧
      (∀ e1 e2 : DataChannelOpenError,
        MessageError.from_data_channel_open e1 = MessageError.from_data_channel_open e2 →
          e1 = e2) ∧
      (∀ (P S U A M : Type) (e : MessageError),
        (@DataChannelError.from_message P S U A M e) = DataChannelError.Message e) ∧
      (∀ (P S U A M : Type) (e1 e2 : MessageError),
        (@DataChannelError.from_message P S U A M e1) = DataChannelError.from_message e2 →
          e1 = e2) := by
  refine ⟨fun _ => rfl, ?_, fun _ => rfl, ?_, fun _ => rfl, ?_, fun _ _ _ _ _ _ => rfl, ?_⟩
  · intro e1 e2 h
    injection h
  · intro e1 e2 h
    injection h
  · intro e1 e2 h
    injection h
  · intro P S U A M e1 e2 h
    injection h

/-- Witness for C9: each injectivity implication applied at a concrete
inner error. -/
theorem c9_wrapping_total_lossless_witness :
    (ChannelTypeError.InvalidChannelType 255 = ChannelTypeError.InvalidChannelType 255) ∧
      (MessageTypeError.InvalidMessageType 1 = MessageTypeError.InvalidMessageType 1) ∧
      (DataChannelOpenError.InvalidPayloadProtocolIdentifier =
        DataChannelOpenError.InvalidPayloadProtocolIdentifier) ∧
      (MessageError.InvalidPayloadProtocolIdentifier =
        MessageError.InvalidPayloadProtocolIdentifier) :=
  ⟨c9_wrapping_total_lossless.2.1 (ChannelTypeError.InvalidChannelType 255)
      (ChannelTypeError.InvalidChannelType 255) rfl,
    c9_wrapping_total_lossless.2.2.2.1 (MessageTypeError.InvalidMessageType 1)
      (MessageTypeError.InvalidMessageType 1) rfl,
    c9_wrapping_total_lossless.2.2.2.2.2.1
      DataChannelOpenError.InvalidPayloadProtocolIdentifier
      DataChannelOpenError.InvalidPayloadProtocolIdentifier rfl,
    c9_wrapping_total_lossless.2.2.2.2.2.2.2 Unit Unit Unit Unit Unit
      MessageError.InvalidPayloadProtocolIdentifier
      MessageError.InvalidPayloadProtocolIdentifier rfl⟩

/-- Claim C10: whenever `Message::unmarshal_from` returns an error, that
error is a stage-tagged wrapper, either `MessageError::MessageType` or
`MessageError::DataChannelOpen`; the envelope decoder never produces the
top-level `UnexpectedEndOfBuffer`, `ExpectedAndActualLengthMismatch` or
`InvalidPayloadProtocolIdentifier` variants itself. -/
theorem c10_error_stage_tagged (buf : List Nat) (e : MessageError)
    (h : Message.unmarshal_from buf = Except.error e) :
    (∃ inner, e = MessageError.MessageType inner) ∨
      (∃ inner, e = MessageError.DataChannelOpen inner) := by
  unfold Message.unmarshal_from at h
  cases hmt : MessageType.unmarshal_from buf with
  | error e1 =>
    rw [hmt] at h
    simp [MessageError.from_message_type] at h
    exact Or.inl ⟨e1, h.symm⟩
  | ok v =>
    obtain ⟨t, rest⟩ := v
    rw [hmt] at h
    cases t with
    | DataChannelAck => simp at h
    | DataChannelOpen =>
      cases hdo : DataChannelOpen.unmarshal_from rest with
      | error e2 =>
        simp [hdo, MessageError.from_data_channel_open] at h
        exact Or.inr ⟨e2, h.symm⟩
      | ok v2 =>
        obtain ⟨info, r2⟩ := v2
        simp [hdo] at h

/-- Witness for C10 at the invalid-discriminant input `[0x01]`. -/
theorem c10_error_stage_tagged_witness :
    (∃ inner, MessageError.MessageType (MessageTypeError.InvalidMessageType 1) =
        MessageError.MessageType inner) ∨
      (∃ inner, MessageError.MessageType (MessageTypeError.InvalidMessageType 1) =
        MessageError.DataChannelOpen inner) :=
  c10_error_stage_tagged [1]
    (MessageError.MessageType (MessageTypeError.InvalidMessageType 1)) rfl
